import Mathlib

/-!
Shallow embedding of `gear/metrics/metrics.py`, an in-process metrics
aggregator that batches counter and gauge observations and periodically
flushes them to a time-series sink.

Modelling conventions:
* Python `dict` (and `defaultdict`) state is an insertion-ordered
  association list `List (String × α)`; assignment to an existing key
  replaces the value in place (`dictSet`), lookup is `dictGet`.
* Timestamps (`datetime.datetime.now()`) are abstract `Nat` values passed
  as explicit arguments to the operations that read the clock.  A whole
  flush cycle is given a single flush time `now`.
* Metric values (`double_value`) are modelled as `Rat`; every value the
  program manipulates here (increments by 1, stored gauge samples) is
  exactly representable.
* Python exceptions are modelled with `Except Err` / `Option Err`:
  an operation that can raise returns the state as mutated up to the
  raise point together with the pending exception, matching in-place
  mutation semantics.  The sink (`MetricServiceClient.create_time_series`)
  is an opaque function `CreateTimeSeriesRequest → Except Err Unit`.
-/

namespace GearMetrics

/-- Exceptions (e.g. `GoogleAPIError`) carried as opaque messages. -/
abbrev Err := String

/-- `METRIC_BASE = 'custom.googleapis.com'` from the source. -/
def METRIC_BASE : String := "custom.googleapis.com"

/-- `MIN_GRANULARITY_SECS = 60` from the source. -/
def MIN_GRANULARITY_SECS : Nat := 60

/-- Python-dict lookup on an insertion-ordered association list. -/
def dictGet {α : Type} (m : List (String × α)) (k : String) : Option α :=
  match m with
  | [] => none
  | (k', v) :: rest => if k' = k then some v else dictGet rest k

/-- Python-dict assignment: replace in place when the key exists
(dicts keep insertion order on overwrite), append otherwise. -/
def dictSet {α : Type} (m : List (String × α)) (k : String) (v : α) :
    List (String × α) :=
  match m with
  | [] => [(k, v)]
  | (k', v') :: rest =>
    if k' = k then (k, v) :: rest else (k', v') :: dictSet rest k v

/-- `TimeInterval` of a `monitoring_v3.Point`: both timestamps are unset
on a default-constructed point. -/
structure TimeInterval where
  start_time : Option Nat := none
  end_time : Option Nat := none
  deriving Repr, DecidableEq

/-- `monitoring_v3.Point`: a double value and an interval, both at proto
defaults when constructed by `defaultdict(monitoring_v3.Point)`. -/
structure Point where
  double_value : Rat := 0
  interval : TimeInterval := {}
  deriving Repr, DecidableEq

/-- The `metric` submessage of a `monitoring_v3.TimeSeries`. -/
structure Metric where
  type : String := ""
  deriving Repr, DecidableEq

/-- The `resource` submessage of a `monitoring_v3.TimeSeries`. -/
structure MonitoredResource where
  type : String := ""
  labels : List (String × String) := []
  deriving Repr, DecidableEq

/-- `monitoring_v3.TimeSeries`: one wire-ready record. -/
structure TimeSeries where
  metric : Metric := {}
  metric_kind : String := ""
  resource : MonitoredResource := {}
  points : List Point := []
  deriving Repr, DecidableEq

/-- `monitoring_v3.CreateTimeSeriesRequest`. -/
structure CreateTimeSeriesRequest where
  name : String := ""
  time_series : List TimeSeries := []
  deriving Repr, DecidableEq

/-- `ResourceData`: the immutable reporting identity. -/
structure ResourceData where
  resource_type : String
  cluster_name : String
  namespace_name : String
  location : String
  container_name : String
  pod_name : String
  deriving Repr, DecidableEq

/-- `ResourceData.add_to`: stamp the resource type and the five labels
onto a series (labels in source assignment order). -/
def ResourceData.add_to (rd : ResourceData) (gcp_series : TimeSeries) :
    TimeSeries :=
  { gcp_series with
    resource :=
      { type := rd.resource_type
        labels :=
          [("cluster_name", rd.cluster_name),
           ("namespace_name", rd.namespace_name),
           ("location", rd.location),
           ("container_name", rd.container_name),
           ("pod_name", rd.pod_name)] } }

/-- A registered gauge callback: a zero-argument function producing a
double, which may raise. -/
abbrev GaugeFn := Unit → Except Err Rat

/-- The sink boundary: `MetricServiceClient.create_time_series`, which
may raise a `GoogleAPIError`. -/
abbrev Sink := CreateTimeSeriesRequest → Except Err Unit

/-- The mutable state of a `Metrics` object. -/
structure Metrics where
  project_id : String
  resource_data : ResourceData
  counters : List (String × Point) := []
  gauges : List (String × Point) := []
  gauge_callbacks : List (String × GaugeFn) := []

/-- `Metrics.increment`: `counters[name].value.double_value += 1` followed
by `counters[name].interval.start_time = now()` (the `# FIXME` line) —
the defaultdict materialises a fresh `Point` on first access. -/
def Metrics.increment (s : Metrics) (metric_name : String) (now : Nat) :
    Metrics :=
  let p := (dictGet s.counters metric_name).getD {}
  let p := { p with double_value := p.double_value + 1 }
  let p := { p with interval := { p.interval with start_time := some now } }
  { s with counters := dictSet s.counters metric_name p }

/-- The `gauge` decorator body: `gauge_callbacks[metric_name] = fun`. -/
def registerGauge (s : Metrics) (metric_name : String) (f : GaugeFn) :
    Metrics :=
  { s with gauge_callbacks := dictSet s.gauge_callbacks metric_name f }

/-- The loop body of `Metrics.query_gauges`: walk the callbacks in
insertion order, writing `gauges[name].value.double_value = fn()`;
the first raising callback aborts the walk, leaving the writes made so
far in place (in-place mutation semantics). -/
def queryGaugesList :
    List (String × GaugeFn) → List (String × Point) →
    List (String × Point) × Option Err
  | [], gauges => (gauges, none)
  | (metric_name, gauge_f) :: rest, gauges =>
    match gauge_f () with
    | .error e => (gauges, some e)
    | .ok v =>
      let p := (dictGet gauges metric_name).getD {}
      queryGaugesList rest
        (dictSet gauges metric_name { p with double_value := v })

/-- `Metrics.query_gauges`. -/
def Metrics.query_gauges (s : Metrics) : Metrics × Option Err :=
  let (g, e) := queryGaugesList s.gauge_callbacks s.gauges
  ({ s with gauges := g }, e)

/-- `Metrics.make_time_series`: build one `TimeSeries` for `(name, point)`.
`point.interval.end_time = now()` mutates the point stored in the map, so
the updated point is returned alongside the series; the proto `append`
copies the point into the series. -/
def Metrics.make_time_series (s : Metrics) (metric_name : String)
    (point : Point) (kind : String) (now : Nat) : TimeSeries × Point :=
  let gcp_series : TimeSeries :=
    { metric := { type := METRIC_BASE ++ "/" ++ metric_name }
      metric_kind := kind }
  let gcp_series := s.resource_data.add_to gcp_series
  let point := { point with interval :=
    { point.interval with end_time := some now } }
  ({ gcp_series with points := gcp_series.points ++ [point] }, point)

/-- `MetricServiceClient.common_project_path`. -/
def common_project_path (project_id : String) : String :=
  "projects/" ++ project_id

/-- `Metrics.push_metrics`: build the request from the live counter and
gauge maps (stamping each point's `end_time`), submit it, and clear both
maps only when the sink call returns; a raising sink leaves the maps in
their stamped state and propagates the exception.  Returns the resulting
state, the request that was submitted, and the pending exception. -/
def Metrics.push_metrics (sink : Sink) (s : Metrics) (now : Nat) :
    Metrics × CreateTimeSeriesRequest × Option Err :=
  let counterBuilt := s.counters.map
    (fun np => (np.1, s.make_time_series np.1 np.2 "CUMULATIVE" now))
  let gaugeBuilt := s.gauges.map
    (fun np => (np.1, s.make_time_series np.1 np.2 "GAUGE" now))
  let series_request : CreateTimeSeriesRequest :=
    { name := common_project_path s.project_id
      time_series :=
        counterBuilt.map (fun x => x.2.1) ++ gaugeBuilt.map (fun x => x.2.1) }
  let s := { s with
    counters := counterBuilt.map (fun x => (x.1, x.2.2))
    gauges := gaugeBuilt.map (fun x => (x.1, x.2.2)) }
  match sink series_request with
  | .error e => (s, series_request, some e)
  | .ok _ => ({ s with counters := [], gauges := [] }, series_request, none)

/-- One iteration of the `while True` body of `Metrics.run` after the
interval sleep: sample gauges, then push when either map is nonempty.
`run` installs no exception handler, so a pending exception from sampling
or pushing escapes the loop; it is returned here as the third component.
The second component is the request submitted this cycle, if any. -/
def runCycle (sink : Sink) (s : Metrics) (now : Nat) :
    Metrics × Option CreateTimeSeriesRequest × Option Err :=
  let (s1, gerr) := s.query_gauges
  match gerr with
  | some e => (s1, none, some e)
  | none =>
    if s1.counters.length > 0 ∨ s1.gauges.length > 0 then
      let (s2, req, perr) := s1.push_metrics sink now
      (s2, some req, perr)
    else (s1, none, none)

/-- Finitely many iterations of the `Metrics.run` loop, one flush time per
cycle.  An escaping exception terminates the loop: later cycles do not
run.  Returns the final state, every request submitted, and the exception
that ended the loop, if any. -/
def runLoop (sink : Sink) :
    List Nat → Metrics → Metrics × List CreateTimeSeriesRequest × Option Err
  | [], s => (s, [], none)
  | t :: ts, s =>
    match runCycle sink s t with
    | (s1, req, some e) => (s1, req.toList, some e)
    | (s1, req, none) =>
      let (s2, reqs, err) := runLoop sink ts s1
      (s2, req.toList ++ reqs, err)

end GearMetrics

namespace GearMetrics

/-! ### Helper lemmas about the dict model and sampling -/

theorem dictSet_ne_nil {α : Type} (m : List (String × α)) (k : String) (v : α) :
    dictSet m k v ≠ [] := by
  cases m with
  | nil => simp [dictSet]
  | cons hd tl =>
    obtain ⟨k', v'⟩ := hd
    simp only [dictSet]
    split <;> simp

theorem dictGet_dictSet_ne {α : Type} (m : List (String × α)) (k n : String)
    (v : α) (h : ¬ k = n) : dictGet (dictSet m k v) n = dictGet m n := by
  induction m with
  | nil => simp [dictGet, dictSet, h]
  | cons hd tl ih =>
    obtain ⟨k', v'⟩ := hd
    by_cases hk : k' = k
    · subst hk
      simp [dictGet, dictSet, h]
    · simp [dictGet, dictSet, hk, ih]

theorem dictSet_dictSet {α : Type} (m : List (String × α)) (k : String)
    (a b : α) : dictSet (dictSet m k a) k b = dictSet m k b := by
  induction m with
  | nil => simp [dictSet]
  | cons hd tl ih =>
    obtain ⟨k', v'⟩ := hd
    by_cases hk : k' = k
    · subst hk
      simp [dictSet]
    · simp [dictSet, hk, ih]

theorem queryGaugesList_fst_eq_nil (cbs : List (String × GaugeFn))
    (g : List (String × Point)) (h : (queryGaugesList cbs g).1 = []) :
    g = [] := by
  induction cbs generalizing g with
  | nil => simpa [queryGaugesList] using h
  | cons hd tl ih =>
    obtain ⟨n, f⟩ := hd
    cases hf : f () with
    | error e => simpa [queryGaugesList, hf] using h
    | ok v =>
      exact absurd (ih _ (by simpa [queryGaugesList, hf] using h))
        (dictSet_ne_nil _ _ _)

theorem queryGaugesList_empty (cbs : List (String × GaugeFn))
    (g : List (String × Point)) (h1 : (queryGaugesList cbs g).1 = [])
    (h2 : (queryGaugesList cbs g).2 = none) : cbs = [] ∧ g = [] := by
  cases cbs with
  | nil => exact ⟨rfl, by simpa [queryGaugesList] using h1⟩
  | cons hd tl =>
    obtain ⟨n, f⟩ := hd
    cases hf : f () with
    | error e => simp [queryGaugesList, hf] at h2
    | ok v =>
      have hnil : dictSet g n
          { (dictGet g n).getD {} with double_value := v } = [] :=
        queryGaugesList_fst_eq_nil tl _ (by simpa [queryGaugesList, hf] using h1)
      exact absurd hnil (dictSet_ne_nil _ _ _)

theorem queryGaugesList_unregistered (cbs : List (String × GaugeFn))
    (g : List (String × Point)) (name : String)
    (h : dictGet cbs name = none) :
    dictGet (queryGaugesList cbs g).1 name = dictGet g name := by
  induction cbs generalizing g with
  | nil => simp [queryGaugesList]
  | cons hd tl ih =>
    obtain ⟨k, f⟩ := hd
    have hk : ¬ k = name := by
      intro hkn
      simp [dictGet, hkn] at h
    have htl : dictGet tl name = none := by
      simpa [dictGet, hk] using h
    cases hf : f () with
    | error e => simp [queryGaugesList, hf]
    | ok v =>
      simp only [queryGaugesList, hf]
      rw [ih _ htl, dictGet_dictSet_ne _ _ _ _ hk]

/-! ### Concrete fixtures used by witnesses and counterexamples -/

/-- The resource identity `init()` builds in the source. -/
def rdTest : ResourceData :=
  { resource_type := "k8s_container", cluster_name := "vdc",
    namespace_name := "default", location := "us-central1-a",
    container_name := "ci", pod_name := "ci" }

/-- A freshly constructed `Metrics` object: empty maps, no callbacks. -/
def metrics0 : Metrics := { project_id := "hail-vdc", resource_data := rdTest }

/-- A sink whose submission always raises. -/
def failSink : Sink := fun _ => .error "boom"

/-- A sink whose submission always succeeds. -/
def okSink : Sink := fun _ => .ok ()

/-- State with one pending counter `"x" ↦ 1` accumulated since time 1. -/
def cexPending : Metrics :=
  { metrics0 with
    counters := [("x", { double_value := 1,
                         interval := { start_time := some 1 } })] }

/-- State with one pending gauge `"b" ↦ 7.5` (point created by sampling,
so its interval is entirely unset). -/
def gaugeOnly : Metrics :=
  { metrics0 with gauges := [("b", { double_value := 15/2 })] }

end GearMetrics

namespace GearMetrics

/-! ### Outcome lemmas for `push_metrics` -/

theorem push_metrics_error_state (sink : Sink) (s : Metrics) (now : Nat)
    (e : Err) (h : (Metrics.push_metrics sink s now).2.2 = some e) :
    (Metrics.push_metrics sink s now).1.counters =
      s.counters.map
        (fun np => (np.1, (s.make_time_series np.1 np.2 "CUMULATIVE" now).2)) ∧
    (Metrics.push_metrics sink s now).1.gauges =
      s.gauges.map
        (fun np => (np.1, (s.make_time_series np.1 np.2 "GAUGE" now).2)) := by
  unfold Metrics.push_metrics at h ⊢
  dsimp only at h ⊢
  split at h
  · constructor <;> (dsimp only; rw [List.map_map]; rfl)
  · simp at h

theorem push_metrics_ok_state (sink : Sink) (s : Metrics) (now : Nat)
    (h : (Metrics.push_metrics sink s now).2.2 = none) :
    (Metrics.push_metrics sink s now).1.counters = [] ∧
    (Metrics.push_metrics sink s now).1.gauges = [] := by
  unfold Metrics.push_metrics at h ⊢
  dsimp only at h ⊢
  split at h
  · simp at h
  · exact ⟨rfl, rfl⟩

end GearMetrics

namespace GearMetrics

/-- Claim C1: the spec requires `start_time` to be set exactly once per
accumulation period, but `Metrics.increment` (the line marked `# FIXME`
in the source) reassigns `counters[name].interval.start_time` on every
call: incrementing `"x"` at time 1 records start_time 1, and a second
increment at time 2 overwrites it with 2 instead of leaving 1. -/
theorem increment_resets_start_time_at_failing_input :
    (dictGet (metrics0.increment "x" 1).counters "x").map
      (fun p => p.interval.start_time) = some (some 1) ∧
    (dictGet ((metrics0.increment "x" 1).increment "x" 2).counters "x").map
      (fun p => p.interval.start_time) = some (some 2) ∧
    (some 2 : Option Nat) ≠ some 1 := by
  refine ⟨by decide, by decide, by decide⟩

/-- Claim C2 counterexample: with a sink that raises and a pending counter,
the flush failure escapes the cycle (the run loop has no handler and
`push_metrics` re-raises), and a two-cycle loop stops after the first
cycle — only one submission ever happens, so the loop did not survive to
the next interval wait. -/
theorem flush_failure_escapes_cycle_cex :
    (runCycle failSink cexPending 10).2.2 = some "boom" ∧
    (runLoop failSink [10, 20] cexPending).2.2 = some "boom" ∧
    (runLoop failSink [10, 20] cexPending).2.1.length = 1 := by
  refine ⟨by decide, by decide, by decide⟩

/-- Claim C2 (amended): a failure during a flush cycle — whether the sink
raised during submission or a gauge callback raised during sampling — is
re-raised and propagates out of the `run` loop, which has no exception
handler: the loop terminates with that exception and no later cycle runs
or submits anything further. -/
theorem failing_cycle_terminates_run_loop (sink : Sink) (s : Metrics)
    (t : Nat) (ts : List Nat) (e : Err)
    (h : (runCycle sink s t).2.2 = some e) :
    (runLoop sink (t :: ts) s).2.2 = some e ∧
    (runLoop sink (t :: ts) s).2.1 = ((runCycle sink s t).2.1).toList := by
  rcases hc : runCycle sink s t with ⟨s1, req, err⟩
  rw [hc] at h
  obtain rfl : err = some e := h
  simp [runLoop, hc]

/-- Witness for C2 (amended): the failing sink with a pending counter at
flush times 10 and 20. -/
theorem failing_cycle_terminates_run_loop_witness :
    (runLoop failSink [10, 20] cexPending).2.2 = some "boom" ∧
    (runLoop failSink [10, 20] cexPending).2.1 =
      ((runCycle failSink cexPending 10).2.1).toList :=
  failing_cycle_terminates_run_loop failSink cexPending 10 [20] "boom"
    (by decide)

/-- Claim C3 counterexample: after a flush whose sink submission fails,
the counter mapping is NOT empty — the claim asserts it is.  With counter
`"x" ↦ 1` pending and a raising sink, the failed flush leaves `"x"` in the
map (with its `end_time` stamped), because the source clears the maps only
after `create_time_series` returns. -/
theorem failed_flush_counters_nonempty_cex :
    (Metrics.push_metrics failSink cexPending 10).2.2 = some "boom" ∧
    (Metrics.push_metrics failSink cexPending 10).1.counters =
      [("x", { double_value := 1,
               interval := { start_time := some 1, end_time := some 10 } })] ∧
    (Metrics.push_metrics failSink cexPending 10).1.counters ≠ [] := by
  refine ⟨by decide, by decide, by decide⟩

/-- Claim C3 (amended): after a flush cycle whose sink submission fails,
the counter and gauge mappings are NOT cleared: every pending entry's name
and value is retained (only its `end_time` was stamped while building the
batch), because the clear runs only after a successful submission.  The
period's data stays in the maps; it is the loop that dies. -/
theorem failed_flush_retains_pending_data (sink : Sink) (s : Metrics)
    (t : Nat) (e : Err) (h : (Metrics.push_metrics sink s t).2.2 = some e) :
    (Metrics.push_metrics sink s t).1.counters.map
        (fun np => (np.1, np.2.double_value)) =
      s.counters.map (fun np => (np.1, np.2.double_value)) ∧
    (Metrics.push_metrics sink s t).1.gauges.map
        (fun np => (np.1, np.2.double_value)) =
      s.gauges.map (fun np => (np.1, np.2.double_value)) := by
  obtain ⟨hc, hg⟩ := push_metrics_error_state sink s t e h
  rw [hc, hg, List.map_map, List.map_map]
  constructor <;> rfl

/-- Witness for C3 (amended): the failing sink with counter `"x" ↦ 1`. -/
theorem failed_flush_retains_pending_data_witness :
    (Metrics.push_metrics failSink cexPending 10).1.counters.map
        (fun np => (np.1, np.2.double_value)) =
      cexPending.counters.map (fun np => (np.1, np.2.double_value)) ∧
    (Metrics.push_metrics failSink cexPending 10).1.gauges.map
        (fun np => (np.1, np.2.double_value)) =
      cexPending.gauges.map (fun np => (np.1, np.2.double_value)) :=
  failed_flush_retains_pending_data failSink cexPending 10 "boom" (by decide)

end GearMetrics

namespace GearMetrics

/-- The request built by `push_metrics` is the same whether or not the
sink subsequently raises: one CUMULATIVE series per counter entry followed
by one GAUGE series per gauge entry, in map order. -/
theorem push_metrics_request (sink : Sink) (s : Metrics) (now : Nat) :
    (Metrics.push_metrics sink s now).2.1 =
      { name := common_project_path s.project_id,
        time_series :=
          s.counters.map
              (fun np => (s.make_time_series np.1 np.2 "CUMULATIVE" now).1) ++
            s.gauges.map
              (fun np => (s.make_time_series np.1 np.2 "GAUGE" now).1) } := by
  unfold Metrics.push_metrics
  dsimp only
  split <;> (dsimp only; rw [List.map_map, List.map_map]; rfl)

/-- Claim C4: with exactly counter `"a" ↦ 3` and gauge `"b" ↦ 7.5` pending
at flush time, the submitted batch contains exactly two records — a
CUMULATIVE one for `"a"` with value 3 and a GAUGE one for `"b"` with value
7.5 — and both carry the configured ResourceData type and the five
resource labels. -/
theorem push_metrics_converts_pending_to_two_records
    (pid : String) (rd : ResourceData) (sink : Sink) (st : TimeInterval)
    (gt : TimeInterval) (now : Nat) :
    (Metrics.push_metrics sink
        { project_id := pid, resource_data := rd,
          counters := [("a", { double_value := 3, interval := st })],
          gauges := [("b", { double_value := 15/2, interval := gt })] }
        now).2.1.time_series =
      [{ metric := { type := "custom.googleapis.com/a" },
         metric_kind := "CUMULATIVE",
         resource := { type := rd.resource_type,
                       labels := [("cluster_name", rd.cluster_name),
                                  ("namespace_name", rd.namespace_name),
                                  ("location", rd.location),
                                  ("container_name", rd.container_name),
                                  ("pod_name", rd.pod_name)] },
         points := [{ double_value := 3,
                      interval := { start_time := st.start_time,
                                    end_time := some now } }] },
       { metric := { type := "custom.googleapis.com/b" },
         metric_kind := "GAUGE",
         resource := { type := rd.resource_type,
                       labels := [("cluster_name", rd.cluster_name),
                                  ("namespace_name", rd.namespace_name),
                                  ("location", rd.location),
                                  ("container_name", rd.container_name),
                                  ("pod_name", rd.pod_name)] },
         points := [{ double_value := 15/2,
                      interval := { start_time := gt.start_time,
                                    end_time := some now } }] }] := by
  rw [push_metrics_request]
  rfl

end GearMetrics

namespace GearMetrics

/-- Claim C5 counterexample: a pending gauge `"b" ↦ 7.5` (its point fresh
from sampling, interval entirely unset) flushed at time 10 produces a
GAUGE record whose interval is `[unset, 10]`: its `start_time` is `none`,
not the flush time, so `start_time ≠ end_time` — the claimed degenerate
`[now, now]` interval does not hold. -/
theorem gauge_record_degenerate_interval_cex :
    ((Metrics.push_metrics okSink gaugeOnly 10).2.1.time_series.map
        (fun ts => (ts.metric_kind, ts.points.map Point.interval))) =
      [("GAUGE", [{ start_time := none, end_time := some 10 }])] ∧
    (({ start_time := none, end_time := some 10 } : TimeInterval).start_time ≠
      ({ start_time := none, end_time := some 10 } : TimeInterval).end_time) := by
  refine ⟨by decide, by decide⟩

/-- Claim C5 (amended): each gauge entry pending at flush is converted
into a GAUGE TimeSeriesRecord whose `end_time` is the flush time but whose
`start_time` is left exactly as stored on the point — unset (`none`) for
every point created by gauge sampling — so the emitted interval is
`[unset, now]`, not the degenerate `[now, now]`. -/
theorem gauge_record_end_time_only (s : Metrics) (sink : Sink) (t : Nat)
    (name : String) (p : Point) (hmem : (name, p) ∈ s.gauges)
    (hst : p.interval.start_time = none) :
    ({ metric := { type := METRIC_BASE ++ "/" ++ name },
       metric_kind := "GAUGE",
       resource := { type := s.resource_data.resource_type,
                     labels :=
                       [("cluster_name", s.resource_data.cluster_name),
                        ("namespace_name", s.resource_data.namespace_name),
                        ("location", s.resource_data.location),
                        ("container_name", s.resource_data.container_name),
                        ("pod_name", s.resource_data.pod_name)] },
       points := [{ double_value := p.double_value,
                    interval := { start_time := none,
                                  end_time := some t } }] } : TimeSeries)
      ∈ (Metrics.push_metrics sink s t).2.1.time_series := by
  rw [push_metrics_request]
  dsimp only
  apply List.mem_append_right
  apply List.mem_map.mpr
  refine ⟨(name, p), hmem, ?_⟩
  unfold Metrics.make_time_series ResourceData.add_to
  dsimp only
  simp [hst]

/-- Witness for C5 (amended): the fixture `gaugeOnly` with gauge
`"b" ↦ 7.5` flushed at time 10. -/
theorem gauge_record_end_time_only_witness :
    ({ metric := { type := METRIC_BASE ++ "/" ++ "b" },
       metric_kind := "GAUGE",
       resource := { type := gaugeOnly.resource_data.resource_type,
                     labels :=
                       [("cluster_name", gaugeOnly.resource_data.cluster_name),
                        ("namespace_name",
                         gaugeOnly.resource_data.namespace_name),
                        ("location", gaugeOnly.resource_data.location),
                        ("container_name",
                         gaugeOnly.resource_data.container_name),
                        ("pod_name", gaugeOnly.resource_data.pod_name)] },
       points := [{ double_value :=
                      (Point.mk (15/2) {}).double_value,
                    interval := { start_time := none,
                                  end_time := some 10 } }] } : TimeSeries)
      ∈ (Metrics.push_metrics okSink gaugeOnly 10).2.1.time_series :=
  gauge_record_end_time_only gaugeOnly okSink 10 "b"
    { double_value := 15/2 } (by simp [gaugeOnly]) (by decide)

/-- State with counter `"c" ↦ 5` accumulated since time 1, ready to be
flushed. -/
def flushedFive : Metrics :=
  { metrics0 with
    counters := [("c", { double_value := 5,
                         interval := { start_time := some 1 } })] }

/-- Claim C6: after a successful flush the counter map is cleared, so a
single subsequent `increment(name)` followed by a snapshot yields value
exactly 1 for `name` (never the pre-flush accumulation plus one). -/
theorem counter_cleared_after_successful_flush (sink : Sink) (s : Metrics)
    (t1 t2 : Nat) (name : String)
    (h : (Metrics.push_metrics sink s t1).2.2 = none) :
    (Metrics.push_metrics sink s t1).1.counters = [] ∧
    (dictGet ((Metrics.push_metrics sink s t1).1.increment name t2).counters
        name).map Point.double_value = some 1 := by
  obtain ⟨hc, hg⟩ := push_metrics_ok_state sink s t1 h
  refine ⟨hc, ?_⟩
  unfold Metrics.increment
  rw [hc]
  simp [dictGet, dictSet]

/-- Witness for C6: counter `"c" ↦ 5` flushed through a succeeding sink at
time 10, then incremented once at time 20: the snapshot shows exactly 1. -/
theorem counter_cleared_after_successful_flush_witness :
    (Metrics.push_metrics okSink flushedFive 10).1.counters = [] ∧
    (dictGet ((Metrics.push_metrics okSink flushedFive 10).1.increment
        "c" 20).counters "c").map Point.double_value = some 1 :=
  counter_cleared_after_successful_flush okSink flushedFive 10 20 "c"
    (by decide)

end GearMetrics

namespace GearMetrics

/-- Claim C7: when sampling leaves both mappings empty (and raised no
exception), the cycle performs no sink submission, and two consecutive
such cycles both skip submission — the empty outcome is valid and
non-error. -/
theorem empty_state_skips_submission (sink : Sink) (s : Metrics)
    (t1 t2 : Nat) (hc : s.counters = [])
    (hg : (queryGaugesList s.gauge_callbacks s.gauges).1 = [])
    (he : (queryGaugesList s.gauge_callbacks s.gauges).2 = none) :
    runCycle sink s t1 = ({ s with gauges := [] }, none, none) ∧
    runLoop sink [t1, t2] s = ({ s with gauges := [] }, [], none) := by
  obtain ⟨hcb, hgs⟩ := queryGaugesList_empty _ _ hg he
  obtain ⟨pid, rd, cnt, gs, cbs⟩ := s
  dsimp only at hc hcb hgs
  subst hc hcb hgs
  exact ⟨rfl, rfl⟩

/-- Witness for C7: a freshly constructed `Metrics` object at flush times
10 and 20. -/
theorem empty_state_skips_submission_witness :
    runCycle okSink metrics0 10 = ({ metrics0 with gauges := [] }, none, none) ∧
    runLoop okSink [10, 20] metrics0 =
      ({ metrics0 with gauges := [] }, [], none) :=
  empty_state_skips_submission okSink metrics0 10 20 rfl rfl rfl

/-- A gauge callback returning 1, used as fixture. -/
def okFn1 : GaugeFn := fun _ => .ok 1

/-- A gauge callback returning 2, used as fixture. -/
def okFn2 : GaugeFn := fun _ => .ok 2

/-- A gauge callback that raises, used as fixture. -/
def badFn : GaugeFn := fun _ => .error "bad"

/-- Claim C8: gauge registration is last-write-wins.  Registering `"g"`
with `a` and then with `b` leaves the callback map exactly as if only `b`
had been registered; one sample cycle starting from clean gauge state then
records exactly `b`'s value under `"g"` and nothing else — `a` is gone
from the map, so it is never invoked. -/
theorem gauge_registration_last_write_wins (s : Metrics) (a b : GaugeFn)
    (v : Rat) (hb : b () = .ok v) :
    (registerGauge (registerGauge s "g" a) "g" b).gauge_callbacks =
      (registerGauge s "g" b).gauge_callbacks ∧
    (Metrics.query_gauges
        (registerGauge
          (registerGauge { s with gauge_callbacks := [], gauges := [] }
            "g" a) "g" b)).1.gauges = [("g", { double_value := v })] ∧
    (Metrics.query_gauges
        (registerGauge
          (registerGauge { s with gauge_callbacks := [], gauges := [] }
            "g" a) "g" b)).2 = none := by
  refine ⟨?_, ?_, ?_⟩
  · simp [registerGauge, dictSet_dictSet]
  · simp [registerGauge, Metrics.query_gauges, queryGaugesList, dictSet,
      dictGet, hb]
  · simp [registerGauge, Metrics.query_gauges, queryGaugesList, dictSet,
      dictGet, hb]

/-- Witness for C8: callbacks returning 1 and then 2; the sample records
2. -/
theorem gauge_registration_last_write_wins_witness :
    (registerGauge (registerGauge metrics0 "g" okFn1) "g"
        okFn2).gauge_callbacks =
      (registerGauge metrics0 "g" okFn2).gauge_callbacks ∧
    (Metrics.query_gauges
        (registerGauge
          (registerGauge { metrics0 with gauge_callbacks := [], gauges := [] }
            "g" okFn1) "g" okFn2)).1.gauges =
      [("g", { double_value := 2 })] ∧
    (Metrics.query_gauges
        (registerGauge
          (registerGauge { metrics0 with gauge_callbacks := [], gauges := [] }
            "g" okFn1) "g" okFn2)).2 = none :=
  gauge_registration_last_write_wins metrics0 okFn1 okFn2 2 rfl

/-- Claim C9: sampling is fail-fast.  If the callback reached at position
`cbs1 ++ [(name, f)]` raises, the whole walk behaves exactly as if the
callbacks after it were absent — no later callback is invoked or recorded
— and on reaching the failing callback the walk returns immediately with
the exception, writing nothing further. -/
theorem sample_all_fail_fast (cbs1 cbs2 : List (String × GaugeFn))
    (name : String) (f : GaugeFn) (g : List (String × Point)) (e : Err)
    (hf : f () = .error e) :
    queryGaugesList (cbs1 ++ (name, f) :: cbs2) g =
      queryGaugesList (cbs1 ++ [(name, f)]) g ∧
    (∀ g2, queryGaugesList ((name, f) :: cbs2) g2 = (g2, some e)) := by
  constructor
  · induction cbs1 generalizing g with
    | nil => simp [queryGaugesList, hf]
    | cons hd tl ih =>
      obtain ⟨k, fn⟩ := hd
      cases hfn : fn () with
      | error e2 => simp [queryGaugesList, hfn]
      | ok v =>
        simp only [List.cons_append, queryGaugesList, hfn]
        exact ih _
  · intro g2
    simp [queryGaugesList, hf]

/-- Witness for C9: a succeeding callback, then a raising one, then one
registered after it; the walk matches the walk without the tail. -/
theorem sample_all_fail_fast_witness :
    queryGaugesList ([("ok1", okFn1)] ++ ("bad", badFn) :: [("after", okFn2)])
        [] =
      queryGaugesList ([("ok1", okFn1)] ++ [("bad", badFn)]) [] ∧
    (∀ g2, queryGaugesList (("bad", badFn) :: [("after", okFn2)]) g2 =
      (g2, some "bad")) :=
  sample_all_fail_fast [("ok1", okFn1)] [("after", okFn2)] "bad" badFn []
    "bad" rfl

/-- Claim C10: sampling modifies only the gauge-value mapping and only at
registered callback names — `query_gauges` leaves the counter mapping and
the callback registry unchanged, and every gauge entry whose name has no
registered callback is unchanged. -/
theorem query_gauges_frame (s : Metrics) (name : String)
    (h : dictGet s.gauge_callbacks name = none) :
    (Metrics.query_gauges s).1.counters = s.counters ∧
    (Metrics.query_gauges s).1.gauge_callbacks = s.gauge_callbacks ∧
    dictGet (Metrics.query_gauges s).1.gauges name =
      dictGet s.gauges name := by
  have hq : Metrics.query_gauges s =
      ({ s with gauges := (queryGaugesList s.gauge_callbacks s.gauges).1 },
        (queryGaugesList s.gauge_callbacks s.gauges).2) := by
    unfold Metrics.query_gauges
    rcases queryGaugesList s.gauge_callbacks s.gauges with ⟨g2, e2⟩
    rfl
  rw [hq]
  exact ⟨rfl, rfl, queryGaugesList_unregistered _ _ _ h⟩

/-- State with a counter, a stale gauge entry `"other"`, and one callback
`"g"`. -/
def frameState : Metrics :=
  { metrics0 with
    counters := [("k", { double_value := 2,
                         interval := { start_time := some 3 } })],
    gauges := [("other", { double_value := 4 })],
    gauge_callbacks := [("g", okFn1)] }

/-- Witness for C10: sampling `frameState` leaves its counters, its
callback registry, and the unregistered gauge entry `"other"`
untouched. -/
theorem query_gauges_frame_witness :
    (Metrics.query_gauges frameState).1.counters = frameState.counters ∧
    (Metrics.query_gauges frameState).1.gauge_callbacks =
      frameState.gauge_callbacks ∧
    dictGet (Metrics.query_gauges frameState).1.gauges "other" =
      dictGet frameState.gauges "other" :=
  query_gauges_frame frameState "other" rfl

end GearMetrics
